/-
Verification of the Nativity.AI localization pipeline (backend sources)
against its natural-language specification.

Shallow embedding: each Python function relevant to a claim is translated
into an executable Lean definition; collaborator calls (storage, codec,
synthesis, database) are modelled as explicit outcome parameters at the
interface boundary, exactly where the source consumes their results.
-/
import Mathlib

namespace Nativity

/-! ## Python-semantics helpers -/

/-- Python truthiness of an optional string argument (`if output_url:`):
`None` and the empty string are falsy. -/
def pyTruthyStr (o : Option String) : Bool :=
  match o with
  | none => false
  | some s => !(s == "")

/-- Python `int()` applied to a rational: truncation toward zero. -/
def pyInt (q : ℚ) : ℤ :=
  if 0 ≤ q then ⌊q⌋ else ⌈q⌉

/-- Python `str.lower()`, modelled characterwise. -/
def pyLower (s : String) : String :=
  ⟨s.data.map Char.toLower⟩

/-- Python `str.strip()`: remove leading and trailing whitespace. -/
def pyStrip (s : String) : String :=
  ⟨((s.data.dropWhile Char.isWhitespace).reverse.dropWhile Char.isWhitespace).reverse⟩

/-- Python `needle in hay` on strings: substring containment. -/
def strContains (hay needle : String) : Bool :=
  hay.data.tails.any (fun t => needle.data.isPrefixOf t)

/-! ## services/tts_service.py — TTSService -/

/-- One language's entry in `TTSService.VOICE_MAP`: a dict with keys
`"male"` and `"female"`. -/
structure GenderPair where
  male : String
  female : String
  deriving DecidableEq, Repr

/-- Python `lang_voices.get(gender, lang_voices["female"])` on a
two-key gender dict. -/
def GenderPair.getWithFemaleDefault (p : GenderPair) (gender : String) : String :=
  if gender = "male" then p.male
  else if gender = "female" then p.female
  else p.female

/-- Embeds `TTSService.VOICE_MAP` (tts_service.py lines 37-62), as the keyed
lookup `VOICE_MAP.get(key)`. -/
def VOICE_MAP (lang : String) : Option GenderPair :=
  if lang = "hindi" then some ⟨"hi-IN-MadhurNeural", "hi-IN-SwaraNeural"⟩
  else if lang = "tamil" then some ⟨"ta-IN-ValluvarNeural", "ta-IN-PallaviNeural"⟩
  else if lang = "bengali" then some ⟨"bn-IN-BashkarNeural", "bn-IN-TanishaaNeural"⟩
  else if lang = "telugu" then some ⟨"te-IN-MohanNeural", "te-IN-ShrutiNeural"⟩
  else if lang = "marathi" then some ⟨"mr-IN-ManoharNeural", "mr-IN-AarohiNeural"⟩
  else if lang = "english" then some ⟨"en-IN-PrabhatNeural", "en-IN-NeerjaNeural"⟩
  else none

/-- Embeds `TTSService.get_voice` (tts_service.py lines 74-86):
`lang_voices = VOICE_MAP.get(language.lower(), VOICE_MAP["hindi"])`
then `lang_voices.get(gender, lang_voices["female"])`. -/
def get_voice (language : String) (gender : String) : String :=
  let lang_voices := (VOICE_MAP (pyLower language)).getD
    ⟨"hi-IN-MadhurNeural", "hi-IN-SwaraNeural"⟩
  lang_voices.getWithFemaleDefault gender

/-- All twelve concrete voice names appearing in `VOICE_MAP`. -/
def allVoiceNames : List String :=
  ["hi-IN-MadhurNeural", "hi-IN-SwaraNeural",
   "ta-IN-ValluvarNeural", "ta-IN-PallaviNeural",
   "bn-IN-BashkarNeural", "bn-IN-TanishaaNeural",
   "te-IN-MohanNeural", "te-IN-ShrutiNeural",
   "mr-IN-ManoharNeural", "mr-IN-AarohiNeural",
   "en-IN-PrabhatNeural", "en-IN-NeerjaNeural"]

/-! ## services/tts_service.py — generate_segments_from_analysis -/

/-- Input segment dict as consumed by the TTS coordinator
(keys `translated_text`, `start_time`, `end_time`). -/
structure TtsSegment where
  translated_text : String
  start_time : String
  end_time : String
  deriving DecidableEq, Repr

/-- The `AudioSegment` dataclass (tts_service.py lines 18-26). -/
structure AudioSegment where
  text : String
  file_path : String
  start_time : String
  end_time : String
  duration_ms : ℕ
  language : String
  deriving DecidableEq, Repr

/-- Outcome of one `generate_audio_segment` call, at the synthesis
collaborator boundary: the method catches every exception internally and
returns a success flag plus (on success) a duration. -/
structure SynthOutcome where
  success : Bool
  duration_ms : ℕ
  deriving DecidableEq, Repr

/-- Loop body of `TTSService.generate_segments_from_analysis`
(tts_service.py lines 164-194): iterate with `enumerate`, skip segments
whose translated text is empty (`if not text: continue`), call
`generate_audio_segment`, and append an `AudioSegment` only when
`result["success"]` — a failed segment is passed over without raising. -/
def generate_segments_go (synth : ℕ → String → SynthOutcome)
    (language : String) : ℕ → List TtsSegment → List AudioSegment
  | _, [] => []
  | i, seg :: rest =>
    let text := seg.translated_text
    if text = "" then
      generate_segments_go synth language (i + 1) rest
    else
      let result := synth i text
      if result.success then
        { text := text
          file_path := "segment_" ++ toString i ++ ".mp3"
          start_time := seg.start_time
          end_time := seg.end_time
          duration_ms := result.duration_ms
          language := language } :: generate_segments_go synth language (i + 1) rest
      else
        generate_segments_go synth language (i + 1) rest

/-- Embeds `TTSService.generate_segments_from_analysis` (tts_service.py
lines 147-194), parametric in the synthesis collaborator outcome. -/
def generate_segments_from_analysis (synth : ℕ → String → SynthOutcome)
    (segments : List TtsSegment) (language : String) : List AudioSegment :=
  generate_segments_go synth language 0 segments

/-! ## services/ffmpeg_service.py — FFmpegService -/

/-- The named parameters of `FFmpegService.stitch_video` (ffmpeg_service.py
lines 218-224), `self` excluded. -/
def stitch_video_params : List String :=
  ["original_video_path", "audio_segments", "output_path", "optimize_for_mobile"]

/-- The keyword arguments supplied at the Phase 2 call site
`ffmpeg_service.stitch_video(...)` (routes/video.py lines 379-385). -/
def finalize_stitch_call_kwargs : List String :=
  ["original_video_path", "audio_segments", "output_path",
   "optimize_for_mobile", "tts_delay_seconds"]

/-- Python keyword-call semantics: the call binds without a `TypeError`
precisely when every supplied keyword names a declared parameter. -/
def kwargCallBinds (params kwargs : List String) : Bool :=
  kwargs.all (fun k => params.contains k)

/-- One audio segment as seen by the stitcher: its declared source-video
start time and the duration of its synthesized audio, in seconds. -/
structure StitchAudioSeg where
  start_time : ℚ
  duration : ℚ
  deriving DecidableEq, Repr

/-- Start offsets, on the output timeline, of each audio segment after
`concatenate_audio_segments` + merge (ffmpeg_service.py lines 142-311):
the segments are joined back to back into one stream and that stream is
placed at the beginning of the output (no delay or offset filter appears
anywhere in `stitch_video`), so segment `i` starts at the sum of the
durations of segments `0..i-1`, and the first segment starts at 0. -/
def stitchedSegmentOffsets : List StitchAudioSeg → List ℚ
  | [] => []
  | s :: rest => 0 :: (stitchedSegmentOffsets rest).map (fun t => s.duration + t)

/-- The `FFmpegService.create_whatsapp_version` bitrate computation
(ffmpeg_service.py lines 377-381):
`target_bitrate = int((target_size_mb * 8192) / duration) - 128` then
`target_bitrate = max(target_bitrate, 200)`. -/
def whatsapp_target_bitrate (target_size_mb duration : ℚ) : ℤ :=
  max (pyInt (target_size_mb * 8192 / duration) - 128) 200

/-- Modelled from the spec (§4.4, for refinement comparison only): target
bitrate `floor((target_size_MB * 8192) / duration_seconds) -
audio_bitrate_kbps` with `audio_bitrate_kbps = 96`, clamped at 200. -/
def spec_target_bitrate (target_size_mb duration : ℚ) : ℤ :=
  max (⌊target_size_mb * 8192 / duration⌋ - 96) 200

/-! ## routes/video.py — WebVTT subtitle generation (lines 447-474) -/

/-- An approved segment as consumed by Phase 2 (`start`, `end`,
`translated_text` keys). -/
structure ApprovedSeg where
  start : ℚ
  «end» : ℚ
  translated_text : String
  deriving DecidableEq, Repr

/-- One emitted caption block: the number string written on the first
line of the block, the time range, and the (stripped) text. -/
structure VttBlock where
  num : ℕ
  start : ℚ
  stop : ℚ
  text : String
  deriving DecidableEq, Repr

/-- Loop of the subtitle generator (routes/video.py lines 455-464):
`for idx, seg in enumerate(approved_segments)`, strip the translated
text, `continue` when it is empty, otherwise emit a block numbered
`idx + 1` — the number comes from the position in the *input* list. -/
def vttBlocksGo : ℕ → List ApprovedSeg → List VttBlock
  | _, [] => []
  | idx, seg :: rest =>
    if pyStrip seg.translated_text = "" then
      vttBlocksGo (idx + 1) rest
    else
      ⟨idx + 1, seg.start, seg.«end», pyStrip seg.translated_text⟩ :: vttBlocksGo (idx + 1) rest

/-- Caption blocks of the generated WebVTT document for an
approved-segment list. -/
def vttBlocks (segs : List ApprovedSeg) : List VttBlock :=
  vttBlocksGo 0 segs

/-! ## services/db_service.py — DBService -/

/-- A DynamoDB item, modelled by its top-level attribute names (the
values are irrelevant to the claims below). -/
structure DbItem where
  keys : List String
  deriving DecidableEq, Repr

/-- Optional-argument switches of `DBService.save_video`
(db_service.py lines 61-77): whether each optional field was passed
with a truthy / non-`None` value. -/
structure SaveVideoOpts where
  output_url : Bool
  output_s3_key : Bool
  subtitle_s3_key : Bool
  words_localized : Bool
  whatsapp_url : Bool
  file_size_mb : Bool
  cultural_report : Bool
  segments_count : Bool
  draft_segments : Bool
  deriving DecidableEq, Repr

/-- Attribute names of the item built by `DBService.save_video`
(db_service.py lines 104-133). -/
def save_video_item_keys (opts : SaveVideoOpts) : List String :=
  ["PK", "SK", "job_id", "user_id", "target_language", "input_file",
   "status", "created_at"]
  ++ (if opts.output_url then ["output_url"] else [])
  ++ (if opts.output_s3_key then ["output_s3_key"] else [])
  ++ (if opts.subtitle_s3_key then ["subtitle_s3_key"] else [])
  ++ (if opts.words_localized then ["words_localized"] else [])
  ++ (if opts.whatsapp_url then ["whatsapp_url"] else [])
  ++ (if opts.file_size_mb then ["file_size_mb"] else [])
  ++ (if opts.cultural_report then ["cultural_report"] else [])
  ++ (if opts.segments_count then ["segments_count"] else [])
  ++ (if opts.draft_segments then ["draft_segments"] else [])

/-- Attribute names the `update_item` expression of
`DBService.update_job_status` would set (db_service.py lines 241-256):
`SET #status = :status, updated_at = :updated` plus the optional output
fields guarded by Python truthiness. -/
def update_job_status_fields
    (output_url output_s3_key subtitle_s3_key : Option String) : List String :=
  ["status", "updated_at"]
  ++ (if pyTruthyStr output_url then ["output_url"] else [])
  ++ (if pyTruthyStr output_s3_key then ["output_s3_key"] else [])
  ++ (if pyTruthyStr subtitle_s3_key then ["subtitle_s3_key"] else [])

/-- Result of a `DBService.update_job_status` call. -/
inductive UpdateOutcome where
  /-- `"error" in video` evaluated with `video = None` raises `TypeError`. -/
  | raisedTypeError
  /-- an `{"error": ...}` dict is returned and nothing is written. -/
  | errorReturn (msg : String)
  /-- `update_item` runs, setting exactly these attribute names. -/
  | updated (fields : List String)
  deriving DecidableEq, Repr

/-- Embeds `DBService.update_job_status` (db_service.py lines 205-267),
parametric in the result of `get_video_by_job_id` — which (lines
334-361) returns the raw DynamoDB item, or `None` when no item matches
or the query fails. The method then tests `"error" in video` and
`video.get("video")` on that raw item. -/
def update_job_status (lookup : Option DbItem)
    (output_url output_s3_key subtitle_s3_key : Option String) : UpdateOutcome :=
  match lookup with
  | none => .raisedTypeError
  | some item =>
    if item.keys.contains "error" then
      .errorReturn "propagated lookup error"
    else if item.keys.contains "video" then
      .updated (update_job_status_fields output_url output_s3_key subtitle_s3_key)
    else
      .errorReturn "Video not found"

/-! ## services/gemini_service.py — retry loop -/

/-- The constant `MAX_RETRIES` (gemini_service.py line 17). -/
def MAX_RETRIES : ℕ := 10

/-- The constant `INITIAL_RETRY_DELAY_SECONDS` (gemini_service.py line 18). -/
def INITIAL_RETRY_DELAY_SECONDS : ℕ := 5

/-- Transient-failure markers matched against the lowercased error text
(gemini_service.py line 108). -/
def transientMarkers : List String :=
  ["resourceexhausted", "429", "quota", "503", "serviceunavailable", "overloaded"]

/-- The check `any(err in error_str for err in [...])` with
`error_str = str(e).lower()`. -/
def isTransientError (e : String) : Bool :=
  transientMarkers.any (fun m => strContains (pyLower e) m)

/-- Outcome of one `generate_content` attempt at the collaborator
boundary. -/
inductive AttemptOutcome where
  | success (resp : String)
  | failure (err : String)
  deriving DecidableEq, Repr

/-- Result of the retry loop (gemini_service.py lines 93-119). -/
inductive RetryResult where
  /-- the loop `break`s with a response. -/
  | ok (resp : String) (sleeps : List ℕ)
  /-- the quota-exhausted error dict is returned after the final attempt. -/
  | quotaExhausted (sleeps : List ℕ)
  /-- a non-transient error is re-raised immediately. -/
  | raised (err : String) (sleeps : List ℕ)
  deriving DecidableEq, Repr

/-- The retry loop body: `fuel` counts the iterations of
`for attempt in range(MAX_RETRIES)` still available (current one
included), `idx` is the current `attempt` value, and `sleeps`
accumulates the executed `time.sleep` durations in reverse. On a
transient failure the loop sleeps `INITIAL_RETRY_DELAY_SECONDS *
2 ** attempt` only when `attempt < MAX_RETRIES - 1`, i.e. when further
iterations remain; otherwise it returns the quota-exhausted error. -/
def geminiRetryGo (f : ℕ → AttemptOutcome) :
    ℕ → ℕ → List ℕ → RetryResult
  | 0, _, sleeps => .quotaExhausted sleeps.reverse
  | fuel + 1, idx, sleeps =>
    match f idx with
    | .success r => .ok r sleeps.reverse
    | .failure e =>
      if isTransientError e then
        if fuel = 0 then
          .quotaExhausted sleeps.reverse
        else
          geminiRetryGo f fuel (idx + 1)
            (INITIAL_RETRY_DELAY_SECONDS * 2 ^ idx :: sleeps)
      else
        .raised e sleeps.reverse

/-- The `analyze_video` retry loop (gemini_service.py lines 92-119),
parametric in the per-attempt collaborator outcome. -/
def geminiRetryLoop (f : ℕ → AttemptOutcome) : RetryResult :=
  geminiRetryGo f MAX_RETRIES 0 []

/-- The sleep durations executed before the first `k` retries:
`5 * 2 ** 0, 5 * 2 ** 1, ...` as printed by the backoff code. -/
def backoffDelays (k : ℕ) : List ℕ :=
  (List.range k).map (fun i => INITIAL_RETRY_DELAY_SECONDS * 2 ^ i)

/-! ## routes/video.py — the job state machine and Phase 2 -/

/-- The `JobStatus` enumeration (models.py lines 109-117). -/
inductive JobState where
  | pending | uploading | analyzing | generating_audio
  | stitching | complete | failed
  deriving DecidableEq, Repr

/-- The in-memory `LocalizationJob` fields mutated by the pipeline. -/
structure LocJob where
  status : JobState
  progress : ℕ
  input_file : String
  target_language : String
  deriving DecidableEq, Repr

/-- A mutation of a job's polled fields. -/
inductive JobEvent where
  | setStatus (s : JobState)
  | setProgress (p : ℕ)
  deriving DecidableEq, Repr

/-- The progress values of a job-event trace, in order. -/
def progressValues : List JobEvent → List ℕ
  | [] => []
  | .setProgress p :: rest => p :: progressValues rest
  | .setStatus _ :: rest => progressValues rest

/-- The `ProcessingResult` at the media-collaborator boundary: the success
flag and reported size consumed by `process_finalize_dubbing`. -/
structure MediaResult where
  success : Bool
  file_size_mb : ℚ
  deriving DecidableEq, Repr

/-- Collaborator outcomes consumed by one `process_finalize_dubbing`
execution (routes/video.py lines 285-505). -/
structure Phase2Env where
  /-- `s3_service.download_file` returned without an `"error"` key. -/
  download_ok : Bool
  /-- result of `ffmpeg_service.stitch_video`. -/
  stitch : MediaResult
  /-- result of `ffmpeg_service.create_whatsapp_version`, if attempted. -/
  whatsapp : MediaResult
  /-- `s3_service.upload_file` for the primary output succeeded. -/
  upload_ok : Bool
  /-- `s3_service.upload_file` for the compact output reported success. -/
  whatsapp_upload_ok : Bool
  /-- the subtitle try-block ran without an exception. -/
  vtt_ok : Bool
  /-- `user.get("sub")`, as passed to the background task. -/
  user_id : Option String
  /-- the completion-time `db_service.update_job_status` call raised
  (its lookup returned `None`, making `"error" in video` a `TypeError`). -/
  db_update_raises : Bool
  deriving DecidableEq, Repr

/-- Observable effects of one Phase 2 execution. -/
structure Phase2Effects where
  /-- status/progress mutations, in program order, including the two
  performed synchronously by the `finalize` endpoint. -/
  events : List JobEvent
  /-- `create_whatsapp_version` was called. -/
  whatsapp_attempted : Bool
  /-- the primary output was uploaded successfully. -/
  primary_uploaded : Bool
  /-- `upload_file` was called for the compact output. -/
  whatsapp_upload_called : Bool
  deriving DecidableEq, Repr

/-- Events performed by the `finalize` endpoint itself before scheduling
the background task (routes/video.py lines 254-257). -/
def finalizeEntryEvents : List JobEvent :=
  [.setStatus .pending, .setProgress 0]

/-- The status/progress mutations and effects of
`process_finalize_dubbing` (routes/video.py lines 285-505), by direct
translation of its straight-line control flow; any raised step jumps to
the `except` block, which sets `status = FAILED` and touches no
progress. -/
def process_finalize_dubbing (env : Phase2Env) : Phase2Effects :=
  let e1 : List JobEvent := [.setStatus .uploading, .setProgress 5]
  if !env.download_ok then
    ⟨e1 ++ [.setStatus .failed], false, false, false⟩
  else
    let e2 : List JobEvent :=
      e1 ++ [.setProgress 15, .setStatus .generating_audio, .setProgress 20,
             .setProgress 50, .setStatus .stitching, .setProgress 55]
    if !env.stitch.success then
      ⟨e2 ++ [.setStatus .failed], false, false, false⟩
    else
      let e3 := e2 ++ [.setProgress 80]
      let wa := decide (env.stitch.file_size_mb > 15)
      let e4 := e3 ++ [.setProgress 90]
      if !env.upload_ok then
        ⟨e4 ++ [.setStatus .failed], wa, false, false⟩
      else
        let waUpload := wa && env.whatsapp.success
        let e5 := e4 ++ [.setStatus .complete, .setProgress 100]
        let e6 :=
          if pyTruthyStr env.user_id && env.db_update_raises then
            e5 ++ [.setStatus .failed]
          else e5
        ⟨e6, wa, true, waUpload⟩

/-- Full Phase 2 trace: the synchronous re-entry mutations of the
`finalize` endpoint followed by the background task's mutations. -/
def phase2Trace (env : Phase2Env) : List JobEvent :=
  finalizeEntryEvents ++ (process_finalize_dubbing env).events

/-! ## routes/video.py — the finalize endpoint (lines 213-282) -/

/-- Response of the `finalize` endpoint. -/
inductive FinalizeResp where
  | httpError (code : ℕ) (detail : String)
  | ack (job_id : String)
  deriving DecidableEq, Repr

/-- Result of one `finalize_dubbing` request: the response, the job
registry afterwards, and which side effects ran. -/
structure FinalizeResult where
  resp : FinalizeResp
  jobs_after : String → Option LocJob
  segments_persisted : Bool
  background_scheduled : Bool

/-- Embeds `finalize_dubbing` (routes/video.py lines 213-282): validate
`job_id`, validate `approved_segments`, look the job up, check FFmpeg,
and only then mutate the job (status `PENDING`, progress 0), persist the
segments when a caller identity exists, and schedule the background
task. -/
def finalize_dubbing (job_id : Option String) (approved_segments : List ApprovedSeg)
    (jobs : String → Option LocJob) (ffmpeg_available : Bool)
    (user_id : Option String) : FinalizeResult :=
  match job_id with
  | none => ⟨.httpError 400 "job_id is required", jobs, false, false⟩
  | some jid =>
    if approved_segments = [] then
      ⟨.httpError 400 "approved_segments is required", jobs, false, false⟩
    else
      match jobs jid with
      | none => ⟨.httpError 404 "Job not found", jobs, false, false⟩
      | some job =>
        if !ffmpeg_available then
          ⟨.httpError 503 "FFmpeg not installed", jobs, false, false⟩
        else
          ⟨.ack jid,
           fun k => if k = jid then
             some { job with status := .pending, progress := 0 }
           else jobs k,
           pyTruthyStr user_id,
           true⟩

/-! ## Property helpers (spec side) -/

/-- The event suffixes following each assignment of the given status in
a trace: used to say what may still happen after a terminal state. -/
def suffixesAfterStatus (s : JobState) : List JobEvent → List (List JobEvent)
  | [] => []
  | .setStatus t :: rest =>
    (if t = s then [rest] else []) ++ suffixesAfterStatus s rest
  | .setProgress _ :: rest => suffixesAfterStatus s rest

/-- Number of input segments with non-empty translated text. -/
def nonEmptyCount (segs : List TtsSegment) : ℕ :=
  segs.countP (fun s => !(s.translated_text == ""))

/-! ## Theorems -/

/-- C1: the spec (and the Phase 2 call site, which computes
`tts_delay` from the first approved segment and passes it as
`tts_delay_seconds`) requires the concatenated synthesized track to be
offset by the first segment's start time; but `stitch_video` declares no
such parameter — the keyword call cannot bind (it raises `TypeError`) —
and the stitcher's audio assembly places the concatenated track at the
start of the output: with a first segment whose source start time is
3.2 s, its audio sits at offset 0, not 3.2. -/
theorem C1_stitch_offset_code_bug :
    finalize_stitch_call_kwargs.contains "tts_delay_seconds" = true
    ∧ stitch_video_params.contains "tts_delay_seconds" = false
    ∧ kwargCallBinds stitch_video_params finalize_stitch_call_kwargs = false
    ∧ (stitchedSegmentOffsets [⟨16/5, 2⟩, ⟨7, 3⟩]).head? = some 0
    ∧ (0 : ℚ) ≠ 16 / 5 := by
  refine ⟨by decide, by decide, by decide, rfl, by norm_num⟩

/-- C4 counterexample: the code computes
`int((target_size_mb * 8192) / duration) - 128`, not `- 96`: at
`target_size_MB = 14.5, duration = 116` the code yields 896 while the
claimed formula yields 928. -/
theorem C4_bitrate_counterexample :
    whatsapp_target_bitrate (29 / 2) 116 = 896
    ∧ spec_target_bitrate (29 / 2) 116 = 928
    ∧ whatsapp_target_bitrate (29 / 2) 116 ≠ spec_target_bitrate (29 / 2) 116 := by
  have hq : (0 : ℚ) ≤ (29 / 2 : ℚ) * 8192 / 116 := by norm_num
  have h1 : (⌊(29 / 2 : ℚ) * 8192 / 116⌋ : ℤ) = 1024 := by norm_num
  have h2 : whatsapp_target_bitrate (29 / 2) 116 = 896 := by
    unfold whatsapp_target_bitrate pyInt
    rw [if_pos hq, h1]
    norm_num
  have h3 : spec_target_bitrate (29 / 2) 116 = 928 := by
    unfold spec_target_bitrate
    rw [h1]
    norm_num
  refine ⟨h2, h3, ?_⟩
  rw [h2, h3]
  norm_num

/-- C4 amended: for every nonnegative target size and positive duration
the compact-variant bitrate is `max (⌊size*8192/duration⌋ - 128) 200`:
it never drops below the 200 kbps floor, and whenever the raw value is
at most 200 (e.g. durations long enough to make it negative) exactly
200 is returned. -/
theorem C4_bitrate_amended (mb dur : ℚ) (hmb : 0 ≤ mb) (hdur : 0 < dur) :
    whatsapp_target_bitrate mb dur = max (⌊mb * 8192 / dur⌋ - 128) 200
    ∧ 200 ≤ whatsapp_target_bitrate mb dur
    ∧ (⌊mb * 8192 / dur⌋ - 128 ≤ 200 → whatsapp_target_bitrate mb dur = 200) := by
  have hq : (0 : ℚ) ≤ mb * 8192 / dur := by positivity
  have hform : whatsapp_target_bitrate mb dur = max (⌊mb * 8192 / dur⌋ - 128) 200 := by
    unfold whatsapp_target_bitrate pyInt
    rw [if_pos hq]
  refine ⟨hform, ?_, ?_⟩
  · rw [hform]; exact le_max_right _ _
  · intro h
    rw [hform]
    omega

/-- C4 amended, witness at `target_size_MB = 14.5, duration = 116`. -/
theorem C4_bitrate_amended_witness :
    (0 : ℚ) ≤ 29 / 2 ∧ (0 : ℚ) < 116
    ∧ whatsapp_target_bitrate (29 / 2) 116 = max (⌊(29 / 2 : ℚ) * 8192 / 116⌋ - 128) 200
    ∧ 200 ≤ whatsapp_target_bitrate (29 / 2) 116 := by
  have h := C4_bitrate_amended (29 / 2) 116 (by norm_num) (by norm_num)
  exact ⟨by norm_num, by norm_num, h.1, h.2.1⟩

/-- C10: voice selection is total — for every language and gender string
the result is one of the twelve concrete voice names; an unknown
(lowercased) language falls back to the Hindi pair, and any gender other
than `"male"`/`"female"` yields the female voice of the selected
language. -/
theorem C10_voice_selection_total (language gender : String) :
    get_voice language gender ∈ allVoiceNames
    ∧ (VOICE_MAP (pyLower language) = none →
        get_voice language gender =
          if gender = "male" then "hi-IN-MadhurNeural" else "hi-IN-SwaraNeural")
    ∧ (gender ≠ "male" → gender ≠ "female" →
        get_voice language gender =
          ((VOICE_MAP (pyLower language)).getD
            ⟨"hi-IN-MadhurNeural", "hi-IN-SwaraNeural"⟩).female) := by
  refine ⟨?_, ?_, ?_⟩
  · unfold get_voice VOICE_MAP GenderPair.getWithFemaleDefault allVoiceNames
    split_ifs <;> simp
  · intro h
    unfold get_voice GenderPair.getWithFemaleDefault
    rw [h]
    split_ifs <;> rfl
  · intro h1 h2
    unfold get_voice GenderPair.getWithFemaleDefault
    rw [if_neg h1, if_neg h2]

/-- C10 witness: an unsupported language and gender resolve to the
Hindi female voice. -/
theorem C10_voice_selection_total_witness :
    get_voice "klingon" "robot" = "hi-IN-SwaraNeural"
    ∧ get_voice "klingon" "robot" ∈ allVoiceNames := by
  have h := (C10_voice_selection_total "klingon" "robot").2.1 (by decide)
  refine ⟨?_, (C10_voice_selection_total "klingon" "robot").1⟩
  simpa using h

/-! ### C5 support lemmas -/

theorem vttBlocksGo_num_lt (segs : List ApprovedSeg) :
    ∀ (i : ℕ), ∀ b ∈ vttBlocksGo i segs, i < b.num := by
  induction segs with
  | nil => intro i b hb; simp [vttBlocksGo] at hb
  | cons seg rest ih =>
    intro i b hb
    rw [vttBlocksGo] at hb
    split_ifs at hb with h
    · exact Nat.lt_of_succ_lt (ih (i + 1) b hb)
    · rcases List.mem_cons.mp hb with h1 | h1
      · subst h1; exact Nat.lt_succ_self i
      · exact Nat.lt_of_succ_lt (ih (i + 1) b h1)

theorem vttBlocksGo_chain (segs : List ApprovedSeg) :
    ∀ (i : ℕ), List.Chain' (fun a b => a.num < b.num) (vttBlocksGo i segs) := by
  induction segs with
  | nil => intro i; simp [vttBlocksGo]
  | cons seg rest ih =>
    intro i
    rw [vttBlocksGo]
    split_ifs with h
    · exact ih (i + 1)
    · refine List.chain'_cons'.mpr ⟨?_, ih (i + 1)⟩
      intro b hb
      exact vttBlocksGo_num_lt rest (i + 1) b (List.mem_of_mem_head? hb)

theorem vttBlocksGo_length (segs : List ApprovedSeg) :
    ∀ (i : ℕ), (vttBlocksGo i segs).length
      = segs.countP (fun s => !(pyStrip s.translated_text == "")) := by
  induction segs with
  | nil => intro i; simp [vttBlocksGo]
  | cons seg rest ih =>
    intro i
    rw [vttBlocksGo, List.countP_cons]
    by_cases h : pyStrip seg.translated_text = ""
    · rw [if_pos h]
      simp [h, ih (i + 1)]
    · rw [if_neg h]
      have hb : (!(pyStrip seg.translated_text == "")) = true := by
        simp [h]
      simp [hb, ih (i + 1)]

theorem vttBlocksGo_text_ne (segs : List ApprovedSeg) :
    ∀ (i : ℕ), ∀ b ∈ vttBlocksGo i segs, b.text ≠ "" := by
  induction segs with
  | nil => intro i b hb; simp [vttBlocksGo] at hb
  | cons seg rest ih =>
    intro i b hb
    rw [vttBlocksGo] at hb
    split_ifs at hb with h
    · exact ih (i + 1) b hb
    · rcases List.mem_cons.mp hb with h1 | h1
      · subst h1; exact h
      · exact ih (i + 1) b h1

theorem vttBlocksGo_all_nonempty (segs : List ApprovedSeg)
    (h : ∀ s ∈ segs, pyStrip s.translated_text ≠ "") :
    ∀ (i : ℕ), (vttBlocksGo i segs).map VttBlock.num
      = List.range' (i + 1) segs.length := by
  induction segs with
  | nil => intro i; simp [vttBlocksGo]
  | cons seg rest ih =>
    intro i
    have hs : pyStrip seg.translated_text ≠ "" := h seg (by simp)
    rw [vttBlocksGo, if_neg hs]
    have ih2 := ih (fun s hs2 => h s (List.mem_cons_of_mem _ hs2)) (i + 1)
    simp only [List.map_cons, ih2, List.length_cons]
    rw [List.range'_succ]

/-- C5 counterexample: in the generated subtitle document, an
empty-translated-text segment produces no caption block, but it still
consumes a block number — with a whitespace-only first segment the
single emitted block is numbered 2, not 1. -/
theorem C5_vtt_numbering_counterexample :
    vttBlocks [⟨0, 1, " "⟩, ⟨1, 2, "hello"⟩] = [⟨2, 1, 2, "hello"⟩]
    ∧ (vttBlocks [⟨0, 1, " "⟩, ⟨1, 2, "hello"⟩]).map VttBlock.num ≠ [1] := by
  constructor <;> decide

/-- C5 amended: segments whose translated text is empty or
whitespace-only are excluded from the subtitle document (every emitted
block has non-empty text, and the block count equals the number of
segments with non-empty stripped text), but a skipped segment still
consumes its block number — numbers equal the segment's input position
plus one, so they are strictly increasing and are consecutive
`1, 2, ..., n` exactly on inputs with no skipped segments. -/
theorem C5_vtt_numbering_amended (segs : List ApprovedSeg) :
    (∀ b ∈ vttBlocks segs, b.text ≠ "")
    ∧ (vttBlocks segs).length
        = segs.countP (fun s => !(pyStrip s.translated_text == ""))
    ∧ List.Chain' (fun a b => a.num < b.num) (vttBlocks segs)
    ∧ ((∀ s ∈ segs, pyStrip s.translated_text ≠ "") →
        (vttBlocks segs).map VttBlock.num = List.range' 1 segs.length) := by
  refine ⟨vttBlocksGo_text_ne segs 0, vttBlocksGo_length segs 0,
    vttBlocksGo_chain segs 0, ?_⟩
  intro h
  exact vttBlocksGo_all_nonempty segs h 0

/-- C5 amended, witness: with two non-empty segments the blocks are
numbered `[1, 2]`. -/
theorem C5_vtt_numbering_amended_witness :
    (vttBlocks [⟨0, 1, "a"⟩, ⟨1, 2, "b"⟩]).map VttBlock.num = [1, 2] := by
  have h := (C5_vtt_numbering_amended [⟨0, 1, "a"⟩, ⟨1, 2, "b"⟩]).2.2.2 (by decide)
  simpa [List.range'] using h

/-! ### C2 support lemmas -/

theorem generate_segments_go_sublist (synth : ℕ → String → SynthOutcome)
    (lang : String) (segs : List TtsSegment) :
    ∀ (i : ℕ), ((generate_segments_go synth lang i segs).map AudioSegment.text).Sublist
      (segs.map TtsSegment.translated_text) := by
  induction segs with
  | nil => intro i; simp [generate_segments_go]
  | cons seg rest ih =>
    intro i
    rw [generate_segments_go]
    simp only [List.map_cons]
    split_ifs with h1 h2
    · exact (ih (i + 1)).cons _
    · simpa using (ih (i + 1)).cons₂ seg.translated_text
    · exact (ih (i + 1)).cons _

theorem generate_segments_go_all_success (synth : ℕ → String → SynthOutcome)
    (lang : String) (hs : ∀ i s, (synth i s).success = true)
    (segs : List TtsSegment) :
    ∀ (i : ℕ), (generate_segments_go synth lang i segs).map AudioSegment.text
      = (segs.map TtsSegment.translated_text).filter (fun t => !(t == "")) := by
  induction segs with
  | nil => intro i; simp [generate_segments_go]
  | cons seg rest ih =>
    intro i
    rw [generate_segments_go]
    by_cases h : seg.translated_text = ""
    · rw [if_pos h]
      simp [h, ih (i + 1)]
    · rw [if_neg h, if_pos (hs i seg.translated_text)]
      have hb : (!(seg.translated_text == "")) = true := by
        simp [h]
      simp [hb, ih (i + 1)]

/-- C2 counterexample: with a single segment of non-empty translated
text whose synthesis fails, the coordination call returns normally with
an empty resource list — the failure is silently dropped, not surfaced
as an error aborting the call. -/
theorem C2_tts_abort_counterexample :
    generate_segments_from_analysis (fun _ _ => ⟨false, 0⟩)
      [⟨"x", "00:01", "00:02"⟩] "hindi" = []
    ∧ nonEmptyCount [⟨"x", "00:01", "00:02"⟩] = 1 := by
  constructor <;> rfl

/-- C2 amended: the coordinator preserves input order — the produced
texts form a sublist of the input translated texts — and skips
empty-text segments without error; but an individual synthesis failure
does not abort the call: the failed segment is silently omitted, and
only when every synthesis call succeeds is the output exactly the
non-empty-text segments in order. -/
theorem C2_tts_coordination_amended (synth : ℕ → String → SynthOutcome)
    (segs : List TtsSegment) (lang : String) :
    ((generate_segments_from_analysis synth segs lang).map AudioSegment.text).Sublist
      (segs.map TtsSegment.translated_text)
    ∧ ((∀ i s, (synth i s).success = true) →
        (generate_segments_from_analysis synth segs lang).map AudioSegment.text
          = (segs.map TtsSegment.translated_text).filter (fun t => !(t == ""))) := by
  refine ⟨generate_segments_go_sublist synth lang segs 0, ?_⟩
  intro hs
  exact generate_segments_go_all_success synth lang hs segs 0

/-- C2 amended, witness: with an always-succeeding synthesizer, an
empty-text segment is skipped and the non-empty one is returned. -/
theorem C2_tts_coordination_amended_witness :
    (generate_segments_from_analysis (fun _ _ => ⟨true, 7⟩)
      [⟨"", "00:00", "00:01"⟩, ⟨"hi", "00:01", "00:02"⟩] "hindi").map
        AudioSegment.text = ["hi"] := by
  have h := (C2_tts_coordination_amended (fun _ _ => ⟨true, 7⟩)
    [⟨"", "00:00", "00:01"⟩, ⟨"hi", "00:01", "00:02"⟩] "hindi").2 (fun _ _ => rfl)
  simpa using h

/-! ### C3 -/

/-- The durable item created for a job by Phase 1
(`db_service.save_video(..., status="needs_review", draft_segments=...,
cultural_report=..., segments_count=...)`, routes/video.py lines
187-197): of the optional fields, only `cultural_report`,
`segments_count` and `draft_segments` are passed. -/
def phase1DraftItem : DbItem :=
  ⟨save_video_item_keys ⟨false, false, false, false, false, false, true, true, true⟩⟩

/-- C3 counterexample: at Phase 2 completion the orchestrator calls
`update_job_status(user_id, job_id, "complete", output_url,
output_s3_key, subtitle_s3_key)` (routes/video.py lines 477-485) — the
update expression never includes a word count or an output size, and on
the item actually created by Phase 1 the helper returns
`{"error": "Video not found"}` without writing anything, because it
tests `video.get("video")` on the raw item returned by
`get_video_by_job_id`. -/
theorem C3_history_counterexample :
    update_job_status (some phase1DraftItem) (some "https://signed-url")
        (some "outputs/job1/localized_hindi.mp4") (some "subtitles/job1.vtt")
      = .errorReturn "Video not found"
    ∧ "words_localized" ∉ update_job_status_fields (some "https://signed-url")
        (some "outputs/job1/localized_hindi.mp4") (some "subtitles/job1.vtt")
    ∧ "file_size_mb" ∉ update_job_status_fields (some "https://signed-url")
        (some "outputs/job1/localized_hindi.mp4") (some "subtitles/job1.vtt") := by
  refine ⟨by decide, by decide, by decide⟩

/-- C3 amended: the Phase 2 completion path updates the durable record
with at most the status, timestamp, output URL, output key and subtitle
key — never a word count or output size — and, because the completion
helper inspects `video.get("video")` on the raw looked-up item (which
no `save_video` call ever equips with a `"video"` attribute), the
update in fact returns a not-found error and writes nothing. -/
theorem C3_history_amended (url okey skey : Option String) :
    "words_localized" ∉ update_job_status_fields url okey skey
    ∧ "file_size_mb" ∉ update_job_status_fields url okey skey
    ∧ update_job_status_fields url okey skey ⊆
        ["status", "updated_at", "output_url", "output_s3_key", "subtitle_s3_key"]
    ∧ (∀ item : DbItem, item.keys.contains "video" = false →
        item.keys.contains "error" = false →
        update_job_status (some item) url okey skey
          = .errorReturn "Video not found")
    ∧ (∀ opts : SaveVideoOpts, (save_video_item_keys opts).contains "video" = false) := by
  refine ⟨?_, ?_, ?_, ?_, ?_⟩
  · unfold update_job_status_fields
    split_ifs <;> decide
  · unfold update_job_status_fields
    split_ifs <;> decide
  · unfold update_job_status_fields
    split_ifs <;> decide
  · intro item h1 h2
    have h1m : "video" ∉ item.keys := by simpa using h1
    have h2m : "error" ∉ item.keys := by simpa using h2
    unfold update_job_status
    simp [h1m, h2m]
  · intro opts
    rcases opts with ⟨a, b, c, d, e, f, g, h, i⟩
    cases a <;> cases b <;> cases c <;> cases d <;> cases e <;> cases f <;>
      cases g <;> cases h <;> cases i <;> decide

/-- C3 amended, witness: the concrete Phase 2 completion call on the
Phase 1 item. -/
theorem C3_history_amended_witness :
    phase1DraftItem.keys.contains "video" = false
    ∧ update_job_status (some phase1DraftItem) (some "u") (some "k") (some "s")
        = .errorReturn "Video not found" := by
  have h := (C3_history_amended (some "u") (some "k") (some "s")).2.2.2.1
    phase1DraftItem (by decide) (by decide)
  exact ⟨by decide, h⟩

/-! ### C6 -/

/-- C6: a finalize request with a missing `job_id` or an empty
approved-segment list is rejected synchronously with a 400 client error
before any job state changes — the registry is untouched, no segments
are persisted, and no background task is scheduled — and a finalize for
a `job_id` with no existing Phase 1 job is rejected with a 404, likewise
without side effects. -/
theorem C6_finalize_validation (jobs : String → Option LocJob)
    (ffmpeg : Bool) (user_id : Option String) :
    (∀ segs, finalize_dubbing none segs jobs ffmpeg user_id
      = ⟨.httpError 400 "job_id is required", jobs, false, false⟩)
    ∧ (∀ jid, finalize_dubbing (some jid) [] jobs ffmpeg user_id
      = ⟨.httpError 400 "approved_segments is required", jobs, false, false⟩)
    ∧ (∀ jid segs, segs ≠ [] → jobs jid = none →
        finalize_dubbing (some jid) segs jobs ffmpeg user_id
          = ⟨.httpError 404 "Job not found", jobs, false, false⟩) := by
  refine ⟨fun segs => rfl, fun jid => rfl, ?_⟩
  intro jid segs h1 h2
  simp only [finalize_dubbing]
  rw [if_neg h1, h2]

/-- C6 witness: a non-empty finalize against an empty registry is a
404 with no side effects. -/
theorem C6_finalize_validation_witness :
    finalize_dubbing (some "job-1") [⟨0, 1, "t"⟩] (fun _ => none) true none
      = ⟨.httpError 404 "Job not found", (fun _ => none), false, false⟩ := by
  exact (C6_finalize_validation (fun _ => none) true none).2.2 "job-1"
    [⟨0, 1, "t"⟩] (by simp) rfl

/-! ### C7 support lemmas -/

theorem geminiRetryGo_success (f : ℕ → AttemptOutcome) (fuel idx : ℕ)
    (sleeps : List ℕ) (r : String) (hf : f idx = .success r) :
    geminiRetryGo f (fuel + 1) idx sleeps = .ok r sleeps.reverse := by
  simp [geminiRetryGo, hf]

theorem geminiRetryGo_transient (f : ℕ → AttemptOutcome) (fuel idx : ℕ)
    (sleeps : List ℕ) (e : String) (hf : f idx = .failure e)
    (ht : isTransientError e = true) (hfuel : fuel ≠ 0) :
    geminiRetryGo f (fuel + 1) idx sleeps
      = geminiRetryGo f fuel (idx + 1)
          (INITIAL_RETRY_DELAY_SECONDS * 2 ^ idx :: sleeps) := by
  simp [geminiRetryGo, hf, ht, hfuel]

theorem geminiRetryGo_raise (f : ℕ → AttemptOutcome) (fuel idx : ℕ)
    (sleeps : List ℕ) (e : String) (hf : f idx = .failure e)
    (ht : isTransientError e = false) :
    geminiRetryGo f (fuel + 1) idx sleeps = .raised e sleeps.reverse := by
  simp [geminiRetryGo, hf, ht]

theorem backoff_slide (D idx k : ℕ) (sleeps : List ℕ) :
    ((List.range k).map (fun i => D * 2 ^ (idx + 1 + i))).reverse
        ++ (D * 2 ^ idx :: sleeps)
      = ((List.range (k + 1)).map (fun i => D * 2 ^ (idx + i))).reverse ++ sleeps := by
  have h1 : (List.range (k + 1)).map (fun i => D * 2 ^ (idx + i))
      = D * 2 ^ idx :: (List.range k).map (fun i => D * 2 ^ (idx + 1 + i)) := by
    rw [List.range_succ_eq_map, List.map_cons, List.map_map]
    have hfun : ((fun i => D * 2 ^ (idx + i)) ∘ Nat.succ)
        = (fun i => D * 2 ^ (idx + 1 + i)) := by
      funext i
      simp only [Function.comp_apply]
      have h2 : idx + Nat.succ i = idx + 1 + i := by omega
      rw [h2]
    rw [hfun]
    simp
  rw [h1, List.reverse_cons, List.append_assoc, List.singleton_append]

theorem geminiRetryGo_skip (f : ℕ → AttemptOutcome) (k : ℕ) :
    ∀ (fuel idx : ℕ) (sleeps : List ℕ), k < fuel →
    (∀ i, i < k → ∃ e, f (idx + i) = .failure e ∧ isTransientError e = true) →
    geminiRetryGo f fuel idx sleeps
      = geminiRetryGo f (fuel - k) (idx + k)
          (((List.range k).map
              (fun i => INITIAL_RETRY_DELAY_SECONDS * 2 ^ (idx + i))).reverse
            ++ sleeps) := by
  induction k with
  | zero =>
    intro fuel idx sleeps _ _
    simp
  | succ k ih =>
    intro fuel idx sleeps h1 h2
    obtain ⟨e, hfe, hte⟩ := h2 0 (Nat.succ_pos k)
    rw [Nat.add_zero] at hfe
    obtain ⟨m, rfl⟩ : ∃ m, fuel = m + 1 := ⟨fuel - 1, by omega⟩
    have hk : k < m := by omega
    rw [geminiRetryGo_transient f m idx sleeps e hfe hte (by omega)]
    have h2s : ∀ i, i < k →
        ∃ e2, f (idx + 1 + i) = .failure e2 ∧ isTransientError e2 = true := by
      intro i hi
      obtain ⟨e2, ha, hb⟩ := h2 (i + 1) (by omega)
      refine ⟨e2, ?_, hb⟩
      rwa [show idx + (i + 1) = idx + 1 + i by omega] at ha
    rw [ih m (idx + 1) _ hk h2s]
    rw [backoff_slide]
    congr 1
    · omega
    · omega

/-- C7: in the AI-collaborator retry loop, a transient-class failure
(rate-limit/quota/overload markers in the lowercased error text) is
retried up to `MAX_RETRIES = 10` attempts, sleeping before 0-based
retry `i` for `INITIAL_RETRY_DELAY_SECONDS * 2 ^ i` seconds (the delay
doubles each attempt); a non-transient error is re-raised immediately
with no further attempts; and when all `MAX_RETRIES` attempts fail
transiently, a terminal quota-exhausted error value is returned instead
of raising. -/
theorem C7_gemini_retry (f : ℕ → AttemptOutcome) :
    (∀ k r, k < MAX_RETRIES →
      (∀ i, i < k → ∃ e, f i = .failure e ∧ isTransientError e = true) →
      f k = .success r →
      geminiRetryLoop f = .ok r (backoffDelays k))
    ∧ (∀ k e, k < MAX_RETRIES →
      (∀ i, i < k → ∃ e2, f i = .failure e2 ∧ isTransientError e2 = true) →
      f k = .failure e → isTransientError e = false →
      geminiRetryLoop f = .raised e (backoffDelays k))
    ∧ ((∀ i, i < MAX_RETRIES → ∃ e, f i = .failure e ∧ isTransientError e = true) →
      geminiRetryLoop f = .quotaExhausted (backoffDelays (MAX_RETRIES - 1))) := by
  have hskip : ∀ k, k < MAX_RETRIES →
      (∀ i, i < k → ∃ e, f i = .failure e ∧ isTransientError e = true) →
      geminiRetryLoop f
        = geminiRetryGo f (MAX_RETRIES - k) k
            (((List.range k).map
                (fun i => INITIAL_RETRY_DELAY_SECONDS * 2 ^ i)).reverse ++ []) := by
    intro k hk htr
    unfold geminiRetryLoop
    rw [geminiRetryGo_skip f k MAX_RETRIES 0 [] hk (by simpa using htr)]
    simp
  refine ⟨?_, ?_, ?_⟩
  · intro k r hk htr hs
    rw [hskip k hk htr]
    obtain ⟨m, hm⟩ : ∃ m, MAX_RETRIES - k = m + 1 := ⟨MAX_RETRIES - k - 1, by omega⟩
    rw [hm, geminiRetryGo_success f m k _ r hs]
    simp [backoffDelays]
  · intro k e hk htr hf hnt
    rw [hskip k hk htr]
    obtain ⟨m, hm⟩ : ∃ m, MAX_RETRIES - k = m + 1 := ⟨MAX_RETRIES - k - 1, by omega⟩
    rw [hm, geminiRetryGo_raise f m k _ e hf hnt]
    simp [backoffDelays]
  · intro htr
    have h9 : (9 : ℕ) < MAX_RETRIES := by decide
    rw [hskip 9 h9 (fun i hi => htr i (by omega))]
    obtain ⟨e, hfe, hte⟩ := htr 9 (by decide)
    have hm : MAX_RETRIES - 9 = 0 + 1 := by decide
    rw [hm]
    simp [geminiRetryGo, hfe, hte, backoffDelays, MAX_RETRIES]

/-- C7 witness: two transient failures then success — the loop returns
the response after sleeping 5 s and then 10 s. -/
theorem C7_gemini_retry_witness :
    geminiRetryLoop
        (fun i => if i < 2 then .failure "429 rate limit" else .success "parsed")
      = .ok "parsed" [5, 10] := by
  have h := (C7_gemini_retry
      (fun i => if i < 2 then .failure "429 rate limit" else .success "parsed")).1
    2 "parsed" (by decide)
    (fun i hi => ⟨"429 rate limit", by rw [if_pos hi], by decide⟩)
    (by norm_num)
  have hb : backoffDelays 2 = [5, 10] := by decide
  rwa [hb] at h

/-! ### C8 -/

/-- C8: for every combination of collaborator outcomes, the Phase 2
trace of a job's progress assignments is monotonically non-decreasing;
it starts with the re-entry at `PENDING` with progress reset to 0; after
any `FAILED` assignment no progress mutation ever occurs; and after the
`COMPLETE` assignment the only progress mutation is the terminal
`progress = 100` written in the same terminal block. -/
theorem C8_progress_monotone (env : Phase2Env) :
    List.Chain' (fun a b => a ≤ b) (progressValues (phase2Trace env))
    ∧ (phase2Trace env).take 2 = [.setStatus .pending, .setProgress 0]
    ∧ (∀ suf ∈ suffixesAfterStatus .failed (phase2Trace env),
        progressValues suf = [])
    ∧ (∀ suf ∈ suffixesAfterStatus .complete (phase2Trace env),
        progressValues suf = [100]) := by
  rcases env with ⟨dl, ⟨ss, sz⟩, ⟨was, wasz⟩, up, wup, vtt, uid, dbr⟩
  cases dl <;> cases ss <;> cases up <;>
    cases hdb : (pyTruthyStr uid && dbr) <;>
    refine ⟨?_, ?_, ?_, ?_⟩ <;>
    simp [phase2Trace, process_finalize_dubbing, finalizeEntryEvents, hdb,
      progressValues, List.chain'_cons, suffixesAfterStatus]

/-- C8 witness: with every collaborator succeeding and the completion
database update raising, the single suffix after `COMPLETE` carries
exactly the terminal `progress = 100`. -/
theorem C8_progress_monotone_witness :
    [JobEvent.setProgress 100, JobEvent.setStatus .failed] ∈
      suffixesAfterStatus .complete
        (phase2Trace ⟨true, ⟨true, 20⟩, ⟨true, 10⟩, true, true, true, some "u", true⟩)
    ∧ progressValues [JobEvent.setProgress 100, JobEvent.setStatus .failed]
        = [100] := by
  refine ⟨by decide, ?_⟩
  exact (C8_progress_monotone
    ⟨true, ⟨true, 20⟩, ⟨true, 10⟩, true, true, true, some "u", true⟩).2.2.2
    [JobEvent.setProgress 100, JobEvent.setStatus .failed] (by decide)

/-! ### C9 -/

/-- C9: the compact (WhatsApp) variant is attempted if and only if the
download and the primary stitch succeeded and the primary's reported
size exceeds 15 MB; a compact upload is only ever issued for a
successful compact encode; and when the compact encode fails while
everything else succeeds, the primary is still uploaded, the job still
reaches `COMPLETE` with terminal progress 100 and never `FAILED`, and no
upload is issued for the failed compact output. -/
theorem C9_whatsapp_variant (env : Phase2Env) :
    ((process_finalize_dubbing env).whatsapp_attempted = true
      ↔ env.download_ok = true ∧ env.stitch.success = true
        ∧ env.stitch.file_size_mb > 15)
    ∧ ((process_finalize_dubbing env).whatsapp_upload_called = true →
        env.whatsapp.success = true)
    ∧ (env.download_ok = true → env.stitch.success = true →
        env.upload_ok = true → env.whatsapp.success = false →
        (pyTruthyStr env.user_id && env.db_update_raises) = false →
        (process_finalize_dubbing env).primary_uploaded = true
        ∧ (process_finalize_dubbing env).whatsapp_upload_called = false
        ∧ (process_finalize_dubbing env).events.getLast?
            = some (.setProgress 100)
        ∧ JobEvent.setStatus .complete ∈ (process_finalize_dubbing env).events
        ∧ JobEvent.setStatus .failed ∉ (process_finalize_dubbing env).events) := by
  rcases env with ⟨dl, ⟨ss, sz⟩, ⟨was, wasz⟩, up, wup, vtt, uid, dbr⟩
  cases dl <;> cases ss <;> cases up <;> cases was <;>
    cases hdb : (pyTruthyStr uid && dbr) <;>
    simp [process_finalize_dubbing, hdb]

/-- C9 witness: successful pipeline, oversized primary, failing compact
encode — the primary is uploaded and complete, the compact never
uploaded. -/
theorem C9_whatsapp_variant_witness :
    (process_finalize_dubbing
        ⟨true, ⟨true, 20⟩, ⟨false, 0⟩, true, true, true, none, false⟩).primary_uploaded
      = true
    ∧ (process_finalize_dubbing
        ⟨true, ⟨true, 20⟩, ⟨false, 0⟩, true, true, true, none, false⟩).whatsapp_upload_called
      = false
    ∧ (process_finalize_dubbing
        ⟨true, ⟨true, 20⟩, ⟨false, 0⟩, true, true, true, none, false⟩).whatsapp_attempted
      = true := by
  have h := (C9_whatsapp_variant
    ⟨true, ⟨true, 20⟩, ⟨false, 0⟩, true, true, true, none, false⟩).2.2
    rfl rfl rfl rfl (by decide)
  have ha := (C9_whatsapp_variant
    ⟨true, ⟨true, 20⟩, ⟨false, 0⟩, true, true, true, none, false⟩).1.mpr
    ⟨rfl, rfl, by norm_num⟩
  exact ⟨h.1, h.2.1, ha⟩

end Nativity
